import Mathlib

/-!
Verification development for the HMS multi-tenant hospital-management
authentication core.  The definitions below are a shallow embedding of the
JavaScript source:

  * models/Admin.js, models/Hospital.js, models/User.js,
    models/EmailVerification.js  — record shapes and the lockout /
    pre-save hooks;
  * routes/adminRoutes.js        — the admin login handler;
  * routes/hospital.js           — registration, email verification and
    resend handlers;
  * routes/user.js               — staff creation and employee-id
    generation;
  * middleware/auth.js           — the protect middleware and the
    checkPermission / requirePermission evaluators.

Timestamps are milliseconds since the epoch, modelled as Nat.  Mongo
collections are modelled as Lists; findOne is List.find?,
findByIdAndDelete is List.eraseP on the id, and document saves map the
updated record over the collection by id.  bcrypt comparison and hashing
are external (the credential vault), so the handlers are parameterised
over them.  Express-validator input validation and rate limiting are
presentation-layer concerns outside the model.
-/

namespace HMS

/-- A permission entry: a module name together with a set of actions
(models/Admin.js, models/User.js `permissions` arrays). -/
structure Permission where
  module : String
  actions : List String
deriving Repr, DecidableEq

/-- A tenant record (models/Hospital.js, the version used by the routes,
with status enum pending/active/suspended/inactive). `id` stands for the
Mongo `_id`; `hospitalId` is the generated `HOSP….` business key. -/
structure Hospital where
  id : Nat
  hospitalId : String
  name : String
  email : String
  registrationNumber : String
  licenseNumber : String
  hospitalNumber : String
  isVerified : Bool
  status : String
  verifiedAt : Option Nat
deriving Repr, DecidableEq

/-- An administrator record (models/Admin.js). -/
structure Admin where
  id : Nat
  hospitalId : Nat
  name : String
  jobTitle : String
  email : String
  password : String
  role : String
  permissions : List Permission
  isActive : Bool
  isEmailVerified : Bool
  emailVerifiedAt : Option Nat
  loginAttempts : Nat
  lockUntil : Option Nat
  lastLoginAt : Option Nat
  lastLoginIP : Option String
deriving Repr, DecidableEq

/-- A staff-member record (models/User.js).  `employeeId` is optional in
the schema (sparse index), hence an Option. -/
structure StaffUser where
  id : Nat
  firstName : String
  lastName : String
  email : String
  password : String
  hospitalId : Nat
  role : String
  employeeId : Option String
  isActive : Bool
  permissions : List Permission
  createdBy : Nat
deriving Repr, DecidableEq

/-- An email-verification record (models/EmailVerification.js).  The
`metadata` subdocument is flattened into the two reference fields. -/
structure VerificationRecord where
  id : Nat
  email : String
  token : String
  vtype : String
  expiresAt : Nat
  isUsed : Bool
  usedAt : Option Nat
  attempts : Nat
  maxAttempts : Nat
  isBlocked : Bool
  blockedAt : Option Nat
  metadataHospitalId : Nat
  metadataAdminId : Nat
deriving Repr, DecidableEq

/-- The record store: one list per Mongo collection. -/
structure Store where
  hospitals : List Hospital
  admins : List Admin
  users : List StaffUser
  verifications : List VerificationRecord
deriving Repr, DecidableEq

/-- Hospital.findById. -/
def findHospitalById (l : List Hospital) (i : Nat) : Option Hospital :=
  l.find? (fun h => h.id == i)

/-- Admin.findById. -/
def findAdminById (l : List Admin) (i : Nat) : Option Admin :=
  l.find? (fun a => a.id == i)

/-- User.findById. -/
def findUserById (l : List StaffUser) (i : Nat) : Option StaffUser :=
  l.find? (fun u => u.id == i)

/-- Persist an updated admin document (save): replace the record with the
same `_id`. -/
def updateAdmin (l : List Admin) (a : Admin) : List Admin :=
  l.map (fun x => if x.id == a.id then a else x)

/-- Persist an updated hospital document. -/
def updateHospital (l : List Hospital) (h : Hospital) : List Hospital :=
  l.map (fun x => if x.id == h.id then h else x)

/-- Persist an updated verification document. -/
def updateVerification (l : List VerificationRecord) (v : VerificationRecord) :
    List VerificationRecord :=
  l.map (fun x => if x.id == v.id then v else x)

/-- adminSchema.methods.isLocked (models/Admin.js):
`!!(this.lockUntil && this.lockUntil > Date.now())`. -/
def Admin.isLocked (a : Admin) (now : Nat) : Bool :=
  match a.lockUntil with
  | some t => decide (now < t)
  | none => false

/-- Ceiling division on Nat, used for `Math.ceil((lockUntil - now)/1000/60)`. -/
def ceilDiv (a b : Nat) : Nat := (a + b - 1) / b

/-- `String(n).padStart(4, "0")`. -/
def pad4 (n : Nat) : String :=
  let s := toString n
  String.mk (List.replicate (4 - s.length) '0') ++ s

/-- The claims a signed session token carries (jwt.sign payloads in
routes/adminRoutes.js and routes/hospital.js carry `adminId`; staff
tokens carry `userId`). -/
structure JwtPayload where
  adminId : Option Nat
  userId : Option Nat
  hospitalId : Nat
  email : String
  role : String
deriving Repr, DecidableEq

/-- A signed token: payload, expiry instant, and the secret it was signed
with (standing in for the HMAC signature). -/
structure Jwt where
  payload : JwtPayload
  exp : Nat
  secret : String
deriving Repr, DecidableEq

/-- jwt.sign with an expiry interval. -/
def signJwt (p : JwtPayload) (secret : String) (now expiresInMs : Nat) : Jwt :=
  { payload := p, exp := now + expiresInMs, secret := secret }

/-- jwt.verify failure kinds: JsonWebTokenError (bad signature) and
TokenExpiredError. -/
inductive JwtError
  | badSignature
  | tokenExpired
deriving Repr, DecidableEq

/-- jwt.verify: signature check then expiry check. -/
def verifyJwt (t : Jwt) (secret : String) (now : Nat) : Except JwtError JwtPayload :=
  if t.secret == secret then
    if now < t.exp then .ok t.payload else .error .tokenExpired
  else .error .badSignature

/-! ## Admin login (routes/adminRoutes.js, POST /api/admin/login) -/

/-- Outcome taxonomy of the admin login handler. -/
inductive AdminLoginResult
  | invalidCredentials (attemptsRemaining : Option Nat)
  | accountLocked (minutesLeft : Nat)
  | accountInactive
  | emailNotVerified
  | hospitalInactive
  | success (token : Jwt)
deriving Repr, DecidableEq

/-- Result of a login request: the HTTP-level outcome, the admins
collection as persisted afterwards, and whether bcrypt.compare was
invoked during the request. -/
structure AdminLoginOutcome where
  result : AdminLoginResult
  admins : List Admin
  passwordCompared : Bool
deriving Repr, DecidableEq

/-- The POST /api/admin/login handler.  `compare` is bcrypt.compare,
`maxAttempts` is MAX_LOGIN_ATTEMPTS (default 5) and `lockDurationMs` is
LOCK_TIME (default two hours = 7200000 ms). -/
def adminLogin (compare : String → String → Bool) (secret : String)
    (maxAttempts lockDurationMs jwtExpiresInMs : Nat)
    (s : Store) (email password : String) (clientIP : String) (now : Nat) :
    AdminLoginOutcome :=
  match s.admins.find? (fun a => a.email == email) with
  | none => ⟨.invalidCredentials none, s.admins, false⟩
  | some admin =>
    if admin.isLocked now then
      let lockTime := ceilDiv (admin.lockUntil.getD 0 - now) 60000
      ⟨.accountLocked lockTime, s.admins, false⟩
    else if !(compare password admin.password) then
      let attempts := admin.loginAttempts + 1
      let newLockUntil :=
        if maxAttempts ≤ attempts then some (now + lockDurationMs) else admin.lockUntil
      let a1 := { admin with loginAttempts := attempts, lockUntil := newLockUntil }
      ⟨.invalidCredentials (some (maxAttempts - attempts)), updateAdmin s.admins a1, true⟩
    else if !admin.isActive then
      ⟨.accountInactive, s.admins, true⟩
    else if !admin.isEmailVerified then
      ⟨.emailNotVerified, s.admins, true⟩
    else
      match findHospitalById s.hospitals admin.hospitalId with
      | none => ⟨.hospitalInactive, s.admins, true⟩
      | some h =>
        if h.status != "active" then
          ⟨.hospitalInactive, s.admins, true⟩
        else
          let a1 := { admin with loginAttempts := 0, lockUntil := none,
                                 lastLoginAt := some now, lastLoginIP := some clientIP }
          let token := signJwt ⟨some admin.id, none, h.id, admin.email, admin.role⟩
                         secret now jwtExpiresInMs
          ⟨.success token, updateAdmin s.admins a1, true⟩

/-! ## Email verification (routes/hospital.js, POST /api/hospital/verify-email) -/

/-- Outcome taxonomy of the verify-email handler. -/
inductive VerifyResult
  | alreadyUsed
  | expired
  | invalidToken
  | tooManyAttempts
  | notFound
  | success (token : Jwt)
deriving Repr, DecidableEq

/-- emailVerificationSchema.pre('save') (models/EmailVerification.js):
block the record once attempts reach maxAttempts, recording blockedAt
only if it was not already blocked. -/
def applySaveHook (now : Nat) (v : VerificationRecord) : VerificationRecord :=
  if v.maxAttempts ≤ v.attempts && !v.isBlocked then
    { v with isBlocked := true, blockedAt := some now }
  else v

/-- The POST /api/hospital/verify-email handler.  First lookup: a record
matching email+token+type, unused and unexpired.  Fallback lookup: any
record for email+type, to attribute the failure (AlreadyUsed / Expired /
InvalidToken, the last incrementing attempts). -/
def verifyEmail (secret : String) (jwtExpiresInMs : Nat) (s : Store)
    (email token : String) (now : Nat) : VerifyResult × Store :=
  match s.verifications.find? (fun v =>
      v.email == email && v.token == token && v.vtype == "hospital_registration" &&
      !v.isUsed && decide (now < v.expiresAt)) with
  | none =>
    match s.verifications.find? (fun v =>
        v.email == email && v.vtype == "hospital_registration") with
    | none => (.invalidToken, s)
    | some ev =>
      if ev.isUsed then (.alreadyUsed, s)
      else if decide (ev.expiresAt ≤ now) then (.expired, s)
      else
        let ev1 := { ev with attempts := ev.attempts + 1 }
        let ev2 := if ev1.maxAttempts ≤ ev1.attempts then { ev1 with isBlocked := true } else ev1
        let ev3 := applySaveHook now ev2
        (.invalidToken, { s with verifications := updateVerification s.verifications ev3 })
  | some v =>
    if v.maxAttempts ≤ v.attempts then
      let v1 := applySaveHook now { v with isBlocked := true }
      (.tooManyAttempts, { s with verifications := updateVerification s.verifications v1 })
    else
      match findHospitalById s.hospitals v.metadataHospitalId,
            findAdminById s.admins v.metadataAdminId with
      | some h, some a =>
        let h1 := { h with isVerified := true, status := "active", verifiedAt := some now }
        let a1 := { a with isActive := true, isEmailVerified := true,
                           emailVerifiedAt := some now }
        let v1 := applySaveHook now { v with isUsed := true, usedAt := some now }
        let tok := signJwt ⟨some a.id, none, h.id, a.email, a.role⟩ secret now jwtExpiresInMs
        (.success tok,
          { s with hospitals := updateHospital s.hospitals h1,
                   admins := updateAdmin s.admins a1,
                   verifications := updateVerification s.verifications v1 })
      | _, _ => (.notFound, s)

/-! ## Registration (routes/hospital.js, POST /api/hospital/register-with-verification) -/

/-- Outcome taxonomy of the registration handler. -/
inductive RegisterResult
  | conflictHospital
  | conflictAdminEmail
  | emailDispatchFailed
  | success (hospitalId : String) (tokenExpiresAt : Nat)
deriving Repr, DecidableEq

/-- The hospitalData part of the request body. -/
structure HospitalData where
  name : String
  email : String
  registrationNumber : String
  licenseNumber : String
  hospitalNumber : String
deriving Repr, DecidableEq

/-- The adminData part of the request body. -/
structure AdminData where
  fullName : String
  jobTitle : String
  email : String
  password : String
deriving Repr, DecidableEq

/-- The POST /api/hospital/register-with-verification handler.  `hash`
is bcrypt.hash at cost 12; `hid`, `aid`, `vid` are the Mongo object ids
assigned to the three new documents; `vtoken` is the generated 6-digit
verification code; `emailOk` is whether sendVerificationEmail succeeds.
On email failure the three saved documents are deleted again
(findByIdAndDelete). -/
def register (hash : String → String) (s : Store)
    (hd : HospitalData) (ad : AdminData)
    (hid aid vid : Nat) (vtoken : String) (now : Nat) (emailOk : Bool) :
    RegisterResult × Store :=
  match s.hospitals.find? (fun h =>
      h.email == hd.email || h.registrationNumber == hd.registrationNumber ||
      h.licenseNumber == hd.licenseNumber || h.hospitalNumber == hd.hospitalNumber) with
  | some _ => (.conflictHospital, s)
  | none =>
    match s.admins.find? (fun a => a.email == ad.email) with
    | some _ => (.conflictAdminEmail, s)
    | none =>
      let hospitalCount := s.hospitals.length
      let businessId := "HOSP" ++ pad4 (hospitalCount + 1)
      let hospital : Hospital :=
        { id := hid, hospitalId := businessId, name := hd.name, email := hd.email,
          registrationNumber := hd.registrationNumber, licenseNumber := hd.licenseNumber,
          hospitalNumber := hd.hospitalNumber, isVerified := false, status := "pending",
          verifiedAt := none }
      let admin : Admin :=
        { id := aid, hospitalId := hid, name := ad.fullName, jobTitle := ad.jobTitle,
          email := ad.email, password := hash ad.password, role := "admin",
          permissions := [], isActive := false, isEmailVerified := false,
          emailVerifiedAt := none, loginAttempts := 0, lockUntil := none,
          lastLoginAt := none, lastLoginIP := none }
      let tokenExpiry := now + 600000
      let ver : VerificationRecord :=
        { id := vid, email := ad.email, token := vtoken, vtype := "hospital_registration",
          expiresAt := tokenExpiry, isUsed := false, usedAt := none, attempts := 0,
          maxAttempts := 5, isBlocked := false, blockedAt := none,
          metadataHospitalId := hid, metadataAdminId := aid }
      let s1 : Store :=
        { s with hospitals := s.hospitals ++ [hospital],
                 admins := s.admins ++ [admin],
                 verifications := s.verifications ++ [ver] }
      if emailOk then (.success businessId tokenExpiry, s1)
      else
        (.emailDispatchFailed,
          { s1 with hospitals := s1.hospitals.eraseP (fun h => h.id == hid),
                    admins := s1.admins.eraseP (fun a => a.id == aid),
                    verifications := s1.verifications.eraseP (fun v => v.id == vid) })

/-! ## Authenticated-request middleware (middleware/auth.js, protect) -/

/-- Outcome taxonomy of the protect middleware. -/
inductive AuthResult
  | noToken
  | invalidToken
  | tokenExpired
  | notRecognized
  | adminNotFound
  | adminInactive
  | adminEmailNotVerified
  | adminHospitalInactive
  | userNotFound
  | userInactive
  | userHospitalInactive
  | authedAdmin (admin : Admin) (hospital : Hospital)
  | authedUser (user : StaffUser) (hospital : Hospital)
deriving Repr, DecidableEq

/-- The protect middleware: verify the bearer token, then reload the live
principal record by id and re-check isActive, (for admins)
isEmailVerified, and the tenant status, before attaching the principal. -/
def protect (secret : String) (s : Store) (token : Option Jwt) (now : Nat) : AuthResult :=
  match token with
  | none => .noToken
  | some t =>
    match verifyJwt t secret now with
    | .error .badSignature => .invalidToken
    | .error .tokenExpired => .tokenExpired
    | .ok payload =>
      match payload.adminId with
      | some aid =>
        match findAdminById s.admins aid with
        | none => .adminNotFound
        | some admin =>
          if !admin.isActive then .adminInactive
          else if !admin.isEmailVerified then .adminEmailNotVerified
          else
            match findHospitalById s.hospitals admin.hospitalId with
            | none => .adminHospitalInactive
            | some h =>
              if h.status != "active" then .adminHospitalInactive
              else .authedAdmin admin h
      | none =>
        match payload.userId with
        | none => .notRecognized
        | some uid =>
          match findUserById s.users uid with
          | none => .userNotFound
          | some u =>
            if !u.isActive then .userInactive
            else
              match findHospitalById s.hospitals u.hospitalId with
              | none => .userHospitalInactive
              | some h =>
                if h.status != "active" then .userHospitalInactive
                else .authedUser u h

/-! ## Permission evaluation (middleware/auth.js) -/

/-- The principal attached to the request by protect: `req.user` with its
`role` and `type` fields (`utype` here) and, for staff, the permission
set; admins attached by protect get `utype = "admin"` and no
`permissions` field. -/
structure ReqUser where
  id : Nat
  role : String
  utype : String
  permissions : Option (List Permission)
deriving Repr, DecidableEq

/-- Decisions of the two permission middlewares. -/
inductive PermDecision
  | notAuthenticated
  | allowed
  | noPermissions
  | forbidden
deriving Repr, DecidableEq

/-- The shared permission test of checkPermission: some entry matches the
module and lists the action or the manage wildcard. -/
def permits (ps : List Permission) (m a : String) : Bool :=
  ps.any (fun p => p.module == m && (p.actions.contains a || p.actions.contains "manage"))

/-- checkPermission(module, action) (middleware/auth.js): admins by
`type` pass; then a super_admin `req.admin` passes; then `req.admin`
permissions, then `req.user` permissions, each with the manage wildcard. -/
def checkPermission (m a : String) (reqAdmin : Option Admin) (reqUser : Option ReqUser) :
    PermDecision :=
  match reqUser with
  | none => .notAuthenticated
  | some u =>
    if u.utype == "admin" then .allowed
    else if (reqAdmin.map (fun x => x.role == "super_admin")).getD false then .allowed
    else if (reqAdmin.map (fun x => permits x.permissions m a)).getD false then .allowed
    else if (u.permissions.map (fun ps => permits ps m a)).getD false then .allowed
    else .forbidden

/-- requirePermission(module, action) (middleware/auth.js): role "admin"
or type "admin" passes; otherwise the exact action must be listed in a
matching entry (no manage wildcard here). -/
def requirePermission (m a : String) (reqUser : Option ReqUser) : PermDecision :=
  match reqUser with
  | none => .notAuthenticated
  | some u =>
    if u.role == "admin" || u.utype == "admin" then .allowed
    else
      match u.permissions with
      | none => .noPermissions
      | some ps =>
        if ps.any (fun p => p.module == m && p.actions.contains a) then .allowed
        else .forbidden

/-! ## Staff creation (routes/user.js, POST /api/users) -/

/-- The 2-letter role prefix table of generateEmployeeId. -/
def roleCode (role : String) : String :=
  if role == "admin" then "AD"
  else if role == "doctor" then "DR"
  else if role == "nurse" then "NU"
  else if role == "receptionist" then "RC"
  else if role == "lab_technician" then "LT"
  else if role == "pharmacist" then "PH"
  else if role == "accountant" then "AC"
  else "US"

/-- generateEmployeeId (routes/user.js): role prefix followed by
`User.countDocuments({ hospitalId }) + 1` zero-padded to 4 digits.  The
count is over all staff of the hospital, whatever their role. -/
def generateEmployeeId (users : List StaffUser) (hospitalId : Nat) (role : String) : String :=
  let userCount := (users.filter (fun u => u.hospitalId == hospitalId)).length
  roleCode role ++ pad4 (userCount + 1)

/-- The unique indexes declared on models/User.js: `email` unique,
`employeeId` unique+sparse (global), and the compound unique index
`{ hospitalId: 1, employeeId: 1 }`.  A save violating any of them raises
a duplicate-key error. -/
def violatesUniqueIndexes (users : List StaffUser) (u : StaffUser) : Bool :=
  users.any (fun w =>
    w.email == u.email
    || (match w.employeeId, u.employeeId with
        | some e1, some e2 => e1 == e2
        | _, _ => false)
    || (w.hospitalId == u.hospitalId && w.employeeId == u.employeeId))

/-- Outcome taxonomy of the staff-creation handler. -/
inductive CreateUserResult
  | conflictEmail
  | duplicateKey
  | emailDispatchFailed
  | success (employeeId : String)
deriving Repr, DecidableEq

/-- The POST /api/users handler, reduced to the store transition: reject
an existing email as Conflict; generate the employee id from the
per-hospital count; save (subject to the unique indexes); on invitation
email failure delete the new user again. -/
def createUser (s : Store) (hospitalId : Nat) (role firstName lastName email : String)
    (tempPassword : String) (uid createdBy : Nat) (emailOk : Bool) :
    CreateUserResult × Store :=
  if s.users.any (fun u => u.email == email) then (.conflictEmail, s)
  else
    let eid := generateEmployeeId s.users hospitalId role
    let u : StaffUser :=
      { id := uid, firstName := firstName, lastName := lastName, email := email,
        password := tempPassword, hospitalId := hospitalId, role := role,
        employeeId := some eid, isActive := true, permissions := [],
        createdBy := createdBy }
    if violatesUniqueIndexes s.users u then (.duplicateKey, s)
    else
      let s1 : Store := { s with users := s.users ++ [u] }
      if emailOk then (.success eid, s1)
      else (.emailDispatchFailed,
        { s1 with users := s1.users.eraseP (fun w => w.id == uid) })

end HMS

namespace HMS

/-! ## Theorems -/

/-- C1: For every administrator account, after exactly 5 consecutive failed
password attempts the account becomes locked until lockUntil (set to now +
2 hours), and any subsequent login attempt while locked, even one with the
correct password, fails with AccountLocked before password comparison is
attempted, reporting the remaining lock time in minutes rounded up; it
never falls through to success.  Formally: (1) while locked the result is
accountLocked with the ceiling of the remaining minutes, bcrypt.compare is
never invoked, and no success is possible; (2) a failed attempt while not
locked increments loginAttempts, and sets lockUntil to now + 7200000 ms
exactly when the count reaches 5. -/
theorem claim_C1 (compare : String → String → Bool) (secret clientIP : String)
    (jexp : Nat) (s : Store) (email password : String) (now : Nat) (admin : Admin)
    (hfind : s.admins.find? (fun a => a.email == email) = some admin) :
    (∀ t, admin.lockUntil = some t → now < t →
      (adminLogin compare secret 5 7200000 jexp s email password clientIP now).result
          = .accountLocked (ceilDiv (t - now) 60000) ∧
      (adminLogin compare secret 5 7200000 jexp s email password clientIP now).passwordCompared
          = false ∧
      ∀ tok, (adminLogin compare secret 5 7200000 jexp s email password clientIP now).result
          ≠ .success tok) ∧
    (admin.isLocked now = false → compare password admin.password = false →
      (adminLogin compare secret 5 7200000 jexp s email password clientIP now).admins
        = updateAdmin s.admins
            { admin with loginAttempts := admin.loginAttempts + 1,
                         lockUntil := if 5 ≤ admin.loginAttempts + 1
                                      then some (now + 7200000) else admin.lockUntil } ∧
      (adminLogin compare secret 5 7200000 jexp s email password clientIP now).result
        = .invalidCredentials (some (5 - (admin.loginAttempts + 1)))) := by
  constructor
  · intro t ht hnow
    have hlock : admin.isLocked now = true := by
      simp [Admin.isLocked, ht, hnow]
    refine ⟨?_, ?_, ?_⟩ <;>
      simp [adminLogin, hfind, hlock, ht]
  · intro hnotlocked hcmp
    constructor <;>
      simp [adminLogin, hfind, hnotlocked, hcmp]

/-- C1 witness: a concrete locked admin (lockUntil 61000, now 1000) is
rejected with accountLocked 1 without a password comparison even though
the supplied comparison function accepts everything, and a concrete
admin at 4 failed attempts gets locked until now + 7200000 on the fifth
failure. -/
theorem claim_C1_witness :
    ((adminLogin (fun _ _ => true) "sec" 5 7200000 604800000
        ⟨[], [⟨1, 1, "n", "j", "a@b.c", "h", "admin", [], true, true, none, 0,
          some 61000, none, none⟩], [], []⟩
        "a@b.c" "pw" "ip" 1000).result = .accountLocked 1 ∧
     (adminLogin (fun _ _ => true) "sec" 5 7200000 604800000
        ⟨[], [⟨1, 1, "n", "j", "a@b.c", "h", "admin", [], true, true, none, 0,
          some 61000, none, none⟩], [], []⟩
        "a@b.c" "pw" "ip" 1000).passwordCompared = false) ∧
    (adminLogin (fun _ _ => false) "sec" 5 7200000 604800000
        ⟨[], [⟨1, 1, "n", "j", "a@b.c", "h", "admin", [], true, true, none, 4,
          none, none, none⟩], [], []⟩
        "a@b.c" "pw" "ip" 1000).admins
      = [⟨1, 1, "n", "j", "a@b.c", "h", "admin", [], true, true, none, 5,
          some 7201000, none, none⟩] := by
  constructor
  · have h := claim_C1 (fun _ _ => true) "sec" "ip" 604800000
      ⟨[], [⟨1, 1, "n", "j", "a@b.c", "h", "admin", [], true, true, none, 0,
        some 61000, none, none⟩], [], []⟩
      "a@b.c" "pw" 1000
      ⟨1, 1, "n", "j", "a@b.c", "h", "admin", [], true, true, none, 0,
        some 61000, none, none⟩ (by decide)
    have h1 := h.1 61000 rfl (by decide)
    exact ⟨h1.1, h1.2.1⟩
  · have h := claim_C1 (fun _ _ => false) "sec" "ip" 604800000
      ⟨[], [⟨1, 1, "n", "j", "a@b.c", "h", "admin", [], true, true, none, 4,
        none, none, none⟩], [], []⟩
      "a@b.c" "pw" 1000
      ⟨1, 1, "n", "j", "a@b.c", "h", "admin", [], true, true, none, 4,
        none, none, none⟩ (by decide)
    have h2 := (h.2 (by decide) rfl).1
    simpa [updateAdmin] using h2

end HMS

namespace HMS

/-- C2: For every principal presenting an unexpired, correctly signed
session token, the protect middleware reloads the live record by id and
rejects the request when, at that moment, the live admin is inactive or
email-unverified, or the live staff member is inactive, or the
principal's tenant is missing or has status other than "active" — so
tenant deactivation takes effect before the token naturally expires. -/
theorem claim_C2 (secret : String) (s : Store) (t : Jwt) (now : Nat)
    (hsec : t.secret = secret) (hexp : now < t.exp) :
    (∀ aid admin, t.payload.adminId = some aid →
      findAdminById s.admins aid = some admin →
      (admin.isActive = false →
        protect secret s (some t) now = .adminInactive) ∧
      (admin.isActive = true → admin.isEmailVerified = false →
        protect secret s (some t) now = .adminEmailNotVerified) ∧
      (∀ h, admin.isActive = true → admin.isEmailVerified = true →
        findHospitalById s.hospitals admin.hospitalId = some h →
        h.status ≠ "active" →
        protect secret s (some t) now = .adminHospitalInactive)) ∧
    (∀ uid u, t.payload.adminId = none → t.payload.userId = some uid →
      findUserById s.users uid = some u →
      (u.isActive = false →
        protect secret s (some t) now = .userInactive) ∧
      (∀ h, u.isActive = true →
        findHospitalById s.hospitals u.hospitalId = some h →
        h.status ≠ "active" →
        protect secret s (some t) now = .userHospitalInactive)) := by
  have hver : verifyJwt t secret now = .ok t.payload := by
    simp [verifyJwt, hsec, hexp]
  constructor
  · intro aid admin haid hadmin
    refine ⟨?_, ?_, ?_⟩
    · intro hact
      simp [protect, hver, haid, hadmin, hact]
    · intro hact hverif
      simp [protect, hver, haid, hadmin, hact, hverif]
    · intro h hact hverif hhosp hstat
      simp [protect, hver, haid, hadmin, hact, hverif, hhosp, hstat]
  · intro uid u haid huid huser
    constructor
    · intro hact
      simp [protect, hver, haid, huid, huser, hact]
    · intro h hact hhosp hstat
      simp [protect, hver, haid, huid, huser, hact, hhosp, hstat]

/-- C2 witness: a concrete staff member with a still-unexpired token is
rejected once its tenant's status is "suspended", and a concrete
deactivated admin with an unexpired token is rejected as inactive. -/
theorem claim_C2_witness :
    protect "sec"
      ⟨[⟨7, "HOSP0001", "H", "h@x.io", "r", "l", "n", true, "suspended", none⟩],
       [], [⟨3, "Ann", "Lee", "u@x.io", "pw", 7, "doctor", some "DR0001", true, [], 1⟩], []⟩
      (some ⟨⟨none, some 3, 7, "u@x.io", "doctor"⟩, 9999, "sec"⟩) 100
      = .userHospitalInactive ∧
    protect "sec"
      ⟨[⟨7, "HOSP0001", "H", "h@x.io", "r", "l", "n", true, "active", none⟩],
       [⟨4, 7, "n", "j", "a@x.io", "pw", "admin", [], false, true, none, 0, none, none, none⟩],
       [], []⟩
      (some ⟨⟨some 4, none, 7, "a@x.io", "admin"⟩, 9999, "sec"⟩) 100
      = .adminInactive := by
  constructor
  · have h := claim_C2 "sec"
      ⟨[⟨7, "HOSP0001", "H", "h@x.io", "r", "l", "n", true, "suspended", none⟩],
       [], [⟨3, "Ann", "Lee", "u@x.io", "pw", 7, "doctor", some "DR0001", true, [], 1⟩], []⟩
      ⟨⟨none, some 3, 7, "u@x.io", "doctor"⟩, 9999, "sec"⟩ 100 rfl (by decide)
    exact (h.2 3 ⟨3, "Ann", "Lee", "u@x.io", "pw", 7, "doctor", some "DR0001", true, [], 1⟩
        rfl rfl (by decide)).2
      ⟨7, "HOSP0001", "H", "h@x.io", "r", "l", "n", true, "suspended", none⟩
      rfl (by decide) (by decide)
  · have h := claim_C2 "sec"
      ⟨[⟨7, "HOSP0001", "H", "h@x.io", "r", "l", "n", true, "active", none⟩],
       [⟨4, 7, "n", "j", "a@x.io", "pw", "admin", [], false, true, none, 0, none, none, none⟩],
       [], []⟩
      ⟨⟨some 4, none, 7, "a@x.io", "admin"⟩, 9999, "sec"⟩ 100 rfl (by decide)
    exact (h.1 4 ⟨4, 7, "n", "j", "a@x.io", "pw", "admin", [], false, true, none, 0, none,
        none, none⟩ rfl (by decide)).1 rfl

end HMS

namespace HMS

/-- C3: A verification code is redeemable exactly once: a first redemption
with the matching, unexpired, unused code (within the attempt budget, on a
record whose referenced tenant and admin exist) succeeds and sets
isUsed=true and usedAt, leaving the attempts counter untouched; a second
redemption of the same code yields AlreadyUsed and changes nothing. -/
theorem claim_C3 (secret : String) (jexp : Nat) (h : Hospital) (a : Admin)
    (us : List StaffUser) (v : VerificationRecord) (email tok : String) (now now2 : Nat)
    (hv1 : v.email = email) (hv2 : v.token = tok) (hv3 : v.vtype = "hospital_registration")
    (hv4 : v.isUsed = false) (hv5 : now < v.expiresAt) (hv6 : v.attempts < v.maxAttempts)
    (hh : h.id = v.metadataHospitalId) (ha : a.id = v.metadataAdminId) :
    (verifyEmail secret jexp ⟨[h], [a], us, [v]⟩ email tok now).1
      = .success (signJwt ⟨some a.id, none, h.id, a.email, a.role⟩ secret now jexp) ∧
    (verifyEmail secret jexp ⟨[h], [a], us, [v]⟩ email tok now).2.verifications
      = [{ v with isUsed := true, usedAt := some now }] ∧
    (verifyEmail secret jexp
        (verifyEmail secret jexp ⟨[h], [a], us, [v]⟩ email tok now).2 email tok now2).1
      = .alreadyUsed ∧
    (verifyEmail secret jexp
        (verifyEmail secret jexp ⟨[h], [a], us, [v]⟩ email tok now).2 email tok now2).2
      = (verifyEmail secret jexp ⟨[h], [a], us, [v]⟩ email tok now).2 := by
  have hna : ¬ (v.maxAttempts ≤ v.attempts) := Nat.not_le.mpr hv6
  refine ⟨?_, ?_, ?_, ?_⟩ <;>
    simp [verifyEmail, findHospitalById, findAdminById, updateVerification,
      updateHospital, updateAdmin, applySaveHook, hv1, hv2, hv3, hv4, hv5, hna,
      hh, ha]

/-- C3 witness: a concrete fresh record is redeemed successfully (isUsed
set, attempts still 0) and the same code redeemed again yields
AlreadyUsed with the store unchanged. -/
theorem claim_C3_witness :
    (verifyEmail "sec" 604800000
        ⟨[⟨7, "HOSP0001", "H", "h@x.io", "r", "l", "n", false, "pending", none⟩],
         [⟨4, 7, "n", "j", "e@x.io", "pw", "admin", [], false, false, none, 0, none, none, none⟩],
         [],
         [⟨10, "e@x.io", "123456", "hospital_registration", 1000, false, none, 0, 5,
           false, none, 7, 4⟩]⟩
        "e@x.io" "123456" 100).2.verifications
      = [⟨10, "e@x.io", "123456", "hospital_registration", 1000, true, some 100, 0, 5,
          false, none, 7, 4⟩] ∧
    (verifyEmail "sec" 604800000
        (verifyEmail "sec" 604800000
          ⟨[⟨7, "HOSP0001", "H", "h@x.io", "r", "l", "n", false, "pending", none⟩],
           [⟨4, 7, "n", "j", "e@x.io", "pw", "admin", [], false, false, none, 0, none, none, none⟩],
           [],
           [⟨10, "e@x.io", "123456", "hospital_registration", 1000, false, none, 0, 5,
             false, none, 7, 4⟩]⟩
          "e@x.io" "123456" 100).2
        "e@x.io" "123456" 200).1
      = .alreadyUsed := by
  have h := claim_C3 "sec" 604800000
    ⟨7, "HOSP0001", "H", "h@x.io", "r", "l", "n", false, "pending", none⟩
    ⟨4, 7, "n", "j", "e@x.io", "pw", "admin", [], false, false, none, 0, none, none, none⟩
    []
    ⟨10, "e@x.io", "123456", "hospital_registration", 1000, false, none, 0, 5,
      false, none, 7, 4⟩
    "e@x.io" "123456" 100 200 rfl rfl rfl rfl (by decide) (by decide) rfl rfl
  exact ⟨h.2.1, h.2.2.1⟩

end HMS

namespace HMS

/-- C4 counterexample: an expired record (expiresAt 50, now 100) redeemed
with its own matching code yields Expired but the store is returned
unchanged — the attempts counter stays 0 instead of being incremented, so
the claim that the failed attempt still counts against the attempt budget
is false on the code. -/
theorem claim_C4_cex :
    verifyEmail "sec" 604800000
        ⟨[], [], [],
         [⟨10, "e@x.io", "123456", "hospital_registration", 50, false, none,
           0, 5, false, none, 7, 4⟩]⟩
        "e@x.io" "123456" 100
      = (.expired,
         ⟨[], [], [],
          [⟨10, "e@x.io", "123456", "hospital_registration", 50, false, none,
            0, 5, false, none, 7, 4⟩]⟩) := by
  decide

/-- C4 (amended): For every verification record whose expiresAt is at or
before the current time (and not yet used), attempting to redeem it — with
any submitted code — returns Expired, and the record is NOT modified: the
handler returns before the attempts increment, which happens only on the
InvalidToken path. -/
theorem claim_C4 (secret : String) (jexp : Nat) (hl : List Hospital) (al : List Admin)
    (ul : List StaffUser) (v : VerificationRecord) (email tok : String) (now : Nat)
    (hv1 : v.email = email) (hv3 : v.vtype = "hospital_registration")
    (hv4 : v.isUsed = false) (hexp : v.expiresAt ≤ now) :
    verifyEmail secret jexp ⟨hl, al, ul, [v]⟩ email tok now
      = (.expired, ⟨hl, al, ul, [v]⟩) := by
  have hnl : ¬ (now < v.expiresAt) := Nat.not_lt.mpr hexp
  simp [verifyEmail, hv1, hv3, hv4, hnl, hexp]

/-- C4 witness: a concrete expired record redeemed with a wrong code at
time 60 returns Expired with the store unchanged. -/
theorem claim_C4_witness :
    verifyEmail "sec" 604800000
        ⟨[], [], [],
         [⟨11, "w@x.io", "555555", "hospital_registration", 50, false, none,
           2, 5, false, none, 7, 4⟩]⟩
        "w@x.io" "999999" 60
      = (.expired,
         ⟨[], [], [],
          [⟨11, "w@x.io", "555555", "hospital_registration", 50, false, none,
            2, 5, false, none, 7, 4⟩]⟩) := by
  exact claim_C4 "sec" 604800000 [] [] []
    ⟨11, "w@x.io", "555555", "hospital_registration", 50, false, none, 2, 5,
      false, none, 7, 4⟩
    "w@x.io" "999999" 60 rfl rfl rfl (by decide)

end HMS

namespace HMS

/-- C5 counterexample: on a record whose attempts have reached
maxAttempts (5), a redemption presenting a WRONG code is answered with
InvalidToken, not TooManyAttempts — the rejection does not occur before
the submitted code is considered, refuting the claim that any further
attempt returns TooManyAttempts. -/
theorem claim_C5_cex :
    (verifyEmail "sec" 604800000
        ⟨[], [], [],
         [⟨12, "m@x.io", "222222", "hospital_registration", 1000, false, none,
           5, 5, true, some 10, 7, 4⟩]⟩
        "m@x.io" "000000" 100).1
      = .invalidToken := by
  decide

/-- C5 (amended): On a record whose attempts have reached maxAttempts,
the check happens only after the code lookup: a redemption presenting the
correct, unexpired, unused code returns TooManyAttempts and sets
isBlocked on the record; a redemption presenting a wrong code instead
follows the failure-attribution path, returning InvalidToken while
incrementing attempts and keeping the record blocked. -/
theorem claim_C5 (secret : String) (jexp : Nat) (hl : List Hospital) (al : List Admin)
    (ul : List StaffUser) (v : VerificationRecord) (email tok tok2 : String) (now : Nat)
    (hv1 : v.email = email) (hv2 : v.token = tok) (hv3 : v.vtype = "hospital_registration")
    (hv4 : v.isUsed = false) (hv5 : now < v.expiresAt) (hma : v.maxAttempts ≤ v.attempts)
    (hne : v.token ≠ tok2) :
    verifyEmail secret jexp ⟨hl, al, ul, [v]⟩ email tok now
      = (.tooManyAttempts, ⟨hl, al, ul, [{ v with isBlocked := true }]⟩) ∧
    verifyEmail secret jexp ⟨hl, al, ul, [v]⟩ email tok2 now
      = (.invalidToken,
         ⟨hl, al, ul, [{ v with attempts := v.attempts + 1, isBlocked := true }]⟩) := by
  have hnle : ¬ (v.expiresAt ≤ now) := Nat.not_le.mpr hv5
  have hma1 : v.maxAttempts ≤ v.attempts + 1 := Nat.le_succ_of_le hma
  have hne2 : tok ≠ tok2 := hv2 ▸ hne
  constructor
  · simp [verifyEmail, updateVerification, applySaveHook, hv1, hv2, hv3, hv4, hv5, hma]
  · simp [verifyEmail, updateVerification, applySaveHook, hv1, hv2, hv3, hv4, hv5,
      hnle, hma1, hne2]

/-- C5 witness: on a concrete blocked-out record (attempts 5 of 5), the
correct code "222222" yields TooManyAttempts while the wrong code
"000000" yields InvalidToken with attempts bumped to 6. -/
theorem claim_C5_witness :
    verifyEmail "sec" 604800000
        ⟨[], [], [],
         [⟨13, "t@x.io", "222222", "hospital_registration", 1000, false, none,
           5, 5, true, some 10, 7, 4⟩]⟩
        "t@x.io" "222222" 100
      = (.tooManyAttempts,
         ⟨[], [], [],
          [⟨13, "t@x.io", "222222", "hospital_registration", 1000, false, none,
            5, 5, true, some 10, 7, 4⟩]⟩) ∧
    verifyEmail "sec" 604800000
        ⟨[], [], [],
         [⟨13, "t@x.io", "222222", "hospital_registration", 1000, false, none,
           5, 5, true, some 10, 7, 4⟩]⟩
        "t@x.io" "000000" 100
      = (.invalidToken,
         ⟨[], [], [],
          [⟨13, "t@x.io", "222222", "hospital_registration", 1000, false, none,
            6, 5, true, some 10, 7, 4⟩]⟩) := by
  have h := claim_C5 "sec" 604800000 [] [] []
    ⟨13, "t@x.io", "222222", "hospital_registration", 1000, false, none, 5, 5,
      true, some 10, 7, 4⟩
    "t@x.io" "222222" "000000" 100 rfl rfl rfl rfl (by decide) (by decide) (by decide)
  exact h

end HMS

namespace HMS

/-- C6: Starting from an empty store, a first registration with fresh
hospital data and valid admin data creates tenant HOSP0001 with status
"pending" and an inactive, email-unverified admin; a subsequent
verification call with the correct code (within its 10-minute expiry)
transitions the tenant to status "active" with isVerified=true and the
admin to isActive=true, isEmailVerified=true in the same step, and
returns a session token that validates before its natural expiry. -/
theorem claim_C6 (hash : String → String) (secret : String) (jexp : Nat)
    (hd : HospitalData) (ad : AdminData) (hid aid vid : Nat) (vtoken : String)
    (now1 now2 now3 : Nat) (h2 : now2 < now1 + 600000) (h3 : now3 < now2 + jexp) :
    register hash ⟨[], [], [], []⟩ hd ad hid aid vid vtoken now1 true
      = (.success "HOSP0001" (now1 + 600000),
         ⟨[⟨hid, "HOSP0001", hd.name, hd.email, hd.registrationNumber,
            hd.licenseNumber, hd.hospitalNumber, false, "pending", none⟩],
          [⟨aid, hid, ad.fullName, ad.jobTitle, ad.email, hash ad.password,
            "admin", [], false, false, none, 0, none, none, none⟩],
          [],
          [⟨vid, ad.email, vtoken, "hospital_registration", now1 + 600000,
            false, none, 0, 5, false, none, hid, aid⟩]⟩) ∧
    verifyEmail secret jexp
        ⟨[⟨hid, "HOSP0001", hd.name, hd.email, hd.registrationNumber,
           hd.licenseNumber, hd.hospitalNumber, false, "pending", none⟩],
         [⟨aid, hid, ad.fullName, ad.jobTitle, ad.email, hash ad.password,
           "admin", [], false, false, none, 0, none, none, none⟩],
         [],
         [⟨vid, ad.email, vtoken, "hospital_registration", now1 + 600000,
           false, none, 0, 5, false, none, hid, aid⟩]⟩
        ad.email vtoken now2
      = (.success (signJwt ⟨some aid, none, hid, ad.email, "admin"⟩ secret now2 jexp),
         ⟨[⟨hid, "HOSP0001", hd.name, hd.email, hd.registrationNumber,
            hd.licenseNumber, hd.hospitalNumber, true, "active", some now2⟩],
          [⟨aid, hid, ad.fullName, ad.jobTitle, ad.email, hash ad.password,
            "admin", [], true, true, some now2, 0, none, none, none⟩],
          [],
          [⟨vid, ad.email, vtoken, "hospital_registration", now1 + 600000,
            true, some now2, 0, 5, false, none, hid, aid⟩]⟩) ∧
    verifyJwt (signJwt ⟨some aid, none, hid, ad.email, "admin"⟩ secret now2 jexp)
        secret now3
      = .ok ⟨some aid, none, hid, ad.email, "admin"⟩ := by
  refine ⟨rfl, ?_, ?_⟩
  · simp [verifyEmail, findHospitalById, findAdminById, updateVerification,
      updateHospital, updateAdmin, applySaveHook, h2]
  · simp [verifyJwt, signJwt, h3]

/-- C6 witness: the spec's concrete Acme Clinic registration at time 0
followed by verification at time 1000 with code "654321" yields tenant
HOSP0001 active and verified, the admin active and verified, and a token
accepted at time 2000. -/
theorem claim_C6_witness :
    (register (fun p => "h$" ++ p) ⟨[], [], [], []⟩
        ⟨"Acme Clinic", "a@acme.io", "RN1", "LN1", "HN1"⟩
        ⟨"Jane Doe", "Director", "j@acme.io", "Passw0rd"⟩
        1 2 3 "654321" 0 true).1
      = .success "HOSP0001" 600000 ∧
    (verifyEmail "sec" 604800000
        (register (fun p => "h$" ++ p) ⟨[], [], [], []⟩
          ⟨"Acme Clinic", "a@acme.io", "RN1", "LN1", "HN1"⟩
          ⟨"Jane Doe", "Director", "j@acme.io", "Passw0rd"⟩
          1 2 3 "654321" 0 true).2
        "j@acme.io" "654321" 1000).2.hospitals
      = [⟨1, "HOSP0001", "Acme Clinic", "a@acme.io", "RN1", "LN1", "HN1",
          true, "active", some 1000⟩] ∧
    (verifyEmail "sec" 604800000
        (register (fun p => "h$" ++ p) ⟨[], [], [], []⟩
          ⟨"Acme Clinic", "a@acme.io", "RN1", "LN1", "HN1"⟩
          ⟨"Jane Doe", "Director", "j@acme.io", "Passw0rd"⟩
          1 2 3 "654321" 0 true).2
        "j@acme.io" "654321" 1000).2.admins
      = [⟨2, 1, "Jane Doe", "Director", "j@acme.io", "h$Passw0rd", "admin", [],
          true, true, some 1000, 0, none, none, none⟩] ∧
    (verifyEmail "sec" 604800000
        (register (fun p => "h$" ++ p) ⟨[], [], [], []⟩
          ⟨"Acme Clinic", "a@acme.io", "RN1", "LN1", "HN1"⟩
          ⟨"Jane Doe", "Director", "j@acme.io", "Passw0rd"⟩
          1 2 3 "654321" 0 true).2
        "j@acme.io" "654321" 1000).1
      = .success (signJwt ⟨some 2, none, 1, "j@acme.io", "admin"⟩ "sec" 1000 604800000) ∧
    verifyJwt (signJwt ⟨some 2, none, 1, "j@acme.io", "admin"⟩ "sec" 1000 604800000)
        "sec" 2000
      = .ok ⟨some 2, none, 1, "j@acme.io", "admin"⟩ := by
  have h := claim_C6 (fun p => "h$" ++ p) "sec" 604800000
    ⟨"Acme Clinic", "a@acme.io", "RN1", "LN1", "HN1"⟩
    ⟨"Jane Doe", "Director", "j@acme.io", "Passw0rd"⟩
    1 2 3 "654321" 0 1000 2000 (by decide) (by decide)
  refine ⟨?_, ?_, ?_, ?_, ?_⟩
  · rw [h.1]
  · rw [h.1, h.2.1]
  · rw [h.1, h.2.1]
    rfl
  · rw [h.1, h.2.1]
  · exact h.2.2

end HMS

namespace HMS

/-- Deleting a freshly appended document (its id absent from the prior
collection) restores the prior collection exactly. -/
theorem erasePAppendSingleton {α : Type} (p : α → Bool) (l : List α) (x : α)
    (hl : ∀ b ∈ l, ¬ p b = true) (hx : p x = true) : (l ++ [x]).eraseP p = l := by
  rw [List.eraseP_append_right _ hl, List.eraseP_cons_of_pos hx]
  simp

/-- C7: Tenant-plus-admin registration is atomic at the application
level: a uniqueness hit on the tenant's email, registrationNumber,
licenseNumber or hospitalNumber, or on the admin's email, is reported as
a Conflict with the store untouched; and when the verification-email
dispatch fails after the three records are written, the tenant, admin and
verification records are deleted again, leaving the store exactly as if
the request had never happened (the new ids being fresh). -/
theorem claim_C7 (hash : String → String) (s : Store) (hd : HospitalData) (ad : AdminData)
    (hid aid vid : Nat) (vtoken : String) (now : Nat) (emailOk : Bool) :
    ((s.hospitals.find? (fun h =>
        h.email == hd.email || h.registrationNumber == hd.registrationNumber ||
        h.licenseNumber == hd.licenseNumber ||
        h.hospitalNumber == hd.hospitalNumber)).isSome →
      register hash s hd ad hid aid vid vtoken now emailOk = (.conflictHospital, s)) ∧
    (s.hospitals.find? (fun h =>
        h.email == hd.email || h.registrationNumber == hd.registrationNumber ||
        h.licenseNumber == hd.licenseNumber ||
        h.hospitalNumber == hd.hospitalNumber) = none →
      (s.admins.find? (fun a => a.email == ad.email)).isSome →
      register hash s hd ad hid aid vid vtoken now emailOk = (.conflictAdminEmail, s)) ∧
    (s.hospitals.find? (fun h =>
        h.email == hd.email || h.registrationNumber == hd.registrationNumber ||
        h.licenseNumber == hd.licenseNumber ||
        h.hospitalNumber == hd.hospitalNumber) = none →
      s.admins.find? (fun a => a.email == ad.email) = none →
      (∀ h ∈ s.hospitals, h.id ≠ hid) →
      (∀ a ∈ s.admins, a.id ≠ aid) →
      (∀ v ∈ s.verifications, v.id ≠ vid) →
      register hash s hd ad hid aid vid vtoken now false = (.emailDispatchFailed, s)) := by
  refine ⟨?_, ?_, ?_⟩
  · intro hconf
    rcases Option.isSome_iff_exists.mp hconf with ⟨x, hx⟩
    simp [register, hx]
  · intro hnone hconf
    rcases Option.isSome_iff_exists.mp hconf with ⟨x, hx⟩
    simp [register, hnone, hx]
  · intro hnone1 hnone2 f1 f2 f3
    have e1 := erasePAppendSingleton (fun h => h.id == hid) s.hospitals
      ⟨hid, "HOSP" ++ pad4 (s.hospitals.length + 1), hd.name, hd.email,
        hd.registrationNumber, hd.licenseNumber, hd.hospitalNumber, false, "pending", none⟩
      (by intro b hb; simpa using f1 b hb) (by simp)
    have e2 := erasePAppendSingleton (fun a => a.id == aid) s.admins
      ⟨aid, hid, ad.fullName, ad.jobTitle, ad.email, hash ad.password, "admin", [],
        false, false, none, 0, none, none, none⟩
      (by intro b hb; simpa using f2 b hb) (by simp)
    have e3 := erasePAppendSingleton (fun v => v.id == vid) s.verifications
      ⟨vid, ad.email, vtoken, "hospital_registration", now + 600000, false, none,
        0, 5, false, none, hid, aid⟩
      (by intro b hb; simpa using f3 b hb) (by simp)
    simp [register, hnone1, hnone2, e1, e2, e3]

/-- C7 witness: with one unrelated tenant and admin in the store, (a) a
registration reusing the tenant email is rejected as Conflict with the
store unchanged, and (b) a fresh registration whose verification email
fails to send leaves the store exactly as before. -/
theorem claim_C7_witness :
    register (fun p => "h$" ++ p)
        ⟨[⟨1, "HOSP0001", "Old", "o@x.io", "R0", "L0", "N0", true, "active", none⟩],
         [⟨2, 1, "n", "j", "oa@x.io", "pw", "admin", [], true, true, none, 0, none, none, none⟩],
         [], []⟩
        ⟨"New Clinic", "o@x.io", "R1", "L1", "N1"⟩
        ⟨"Ann", "Dir", "na@x.io", "Pw1"⟩ 9 10 11 "111111" 0 true
      = (.conflictHospital,
         ⟨[⟨1, "HOSP0001", "Old", "o@x.io", "R0", "L0", "N0", true, "active", none⟩],
          [⟨2, 1, "n", "j", "oa@x.io", "pw", "admin", [], true, true, none, 0, none, none, none⟩],
          [], []⟩) ∧
    register (fun p => "h$" ++ p)
        ⟨[⟨1, "HOSP0001", "Old", "o@x.io", "R0", "L0", "N0", true, "active", none⟩],
         [⟨2, 1, "n", "j", "oa@x.io", "pw", "admin", [], true, true, none, 0, none, none, none⟩],
         [], []⟩
        ⟨"New Clinic", "n@x.io", "R1", "L1", "N1"⟩
        ⟨"Ann", "Dir", "na@x.io", "Pw1"⟩ 9 10 11 "111111" 0 false
      = (.emailDispatchFailed,
         ⟨[⟨1, "HOSP0001", "Old", "o@x.io", "R0", "L0", "N0", true, "active", none⟩],
          [⟨2, 1, "n", "j", "oa@x.io", "pw", "admin", [], true, true, none, 0, none, none, none⟩],
          [], []⟩) := by
  constructor
  · exact (claim_C7 (fun p => "h$" ++ p)
      ⟨[⟨1, "HOSP0001", "Old", "o@x.io", "R0", "L0", "N0", true, "active", none⟩],
       [⟨2, 1, "n", "j", "oa@x.io", "pw", "admin", [], true, true, none, 0, none, none, none⟩],
       [], []⟩
      ⟨"New Clinic", "o@x.io", "R1", "L1", "N1"⟩
      ⟨"Ann", "Dir", "na@x.io", "Pw1"⟩ 9 10 11 "111111" 0 true).1 (by decide)
  · exact (claim_C7 (fun p => "h$" ++ p)
      ⟨[⟨1, "HOSP0001", "Old", "o@x.io", "R0", "L0", "N0", true, "active", none⟩],
       [⟨2, 1, "n", "j", "oa@x.io", "pw", "admin", [], true, true, none, 0, none, none, none⟩],
       [], []⟩
      ⟨"New Clinic", "n@x.io", "R1", "L1", "N1"⟩
      ⟨"Ann", "Dir", "na@x.io", "Pw1"⟩ 9 10 11 "111111" 0 false).2.2
      (by decide) (by decide) (by decide) (by decide) (by decide)

end HMS

namespace HMS

/-- C8 counterexample: for a staff principal holding
`{module: billing, actions: [read, manage]}`, the requirePermission
middleware DENIES (billing, delete) — it tests only the exact action and
has no manage wildcard — while checkPermission allows it; so the claim
that a pair is allowed iff the action or the manage wildcard is listed is
false of requirePermission at this input. -/
theorem claim_C8_cex :
    requirePermission "billing" "delete"
        (some ⟨1, "doctor", "user", some [⟨"billing", ["read", "manage"]⟩]⟩)
      = .forbidden ∧
    checkPermission "billing" "delete" none
        (some ⟨1, "doctor", "user", some [⟨"billing", ["read", "manage"]⟩]⟩)
      = .allowed := by
  decide

/-- C8 (amended): For every non-administrator principal with a permission
set, checkPermission allows a requested (module, action) pair iff some
entry has a matching module and either the action or the manage wildcard
in its actions; requirePermission, by contrast, allows the pair iff some
entry has a matching module and the exact action in its actions — manage
is not a wildcard there. -/
theorem claim_C8 (m a : String) (u : ReqUser) (ps : List Permission)
    (hty : u.utype ≠ "admin") (hp : u.permissions = some ps) :
    (checkPermission m a none (some u) = .allowed ↔
      ∃ p ∈ ps, p.module = m ∧ (a ∈ p.actions ∨ "manage" ∈ p.actions)) ∧
    (u.role ≠ "admin" →
      (requirePermission m a (some u) = .allowed ↔
        ∃ p ∈ ps, p.module = m ∧ a ∈ p.actions)) := by
  constructor
  · constructor
    · intro hall
      by_cases hperm : permits ps m a
      · simpa [permits, List.any_eq_true, List.contains] using hperm
      · simp [checkPermission, hty, hp, hperm] at hall
    · intro hex
      have hperm : permits ps m a := by
        simpa [permits, List.any_eq_true, List.contains] using hex
      simp [checkPermission, hty, hp, hperm]
  · intro hrole
    constructor
    · intro hall
      by_cases hperm : ps.any (fun p => p.module == m && p.actions.contains a) = true
      · simpa [List.any_eq_true, List.contains] using hperm
      · simp [requirePermission, hty, hrole, hp, hperm] at hall
        exact hall
    · intro hex
      have hperm : ps.any (fun p => p.module == m && p.actions.contains a) = true := by
        simpa [List.any_eq_true, List.contains] using hex
      simp [requirePermission, hty, hrole, hp, hperm]
      exact hex

/-- C8 witness: for a staff principal holding billing read+manage,
checkPermission allows (billing, read) and (billing, delete) and denies
(inventory, read), and requirePermission allows (billing, read) but not
(billing, delete). -/
theorem claim_C8_witness :
    checkPermission "billing" "read" none
        (some ⟨2, "nurse", "user", some [⟨"billing", ["read", "manage"]⟩]⟩)
      = .allowed ∧
    (checkPermission "inventory" "read" none
        (some ⟨2, "nurse", "user", some [⟨"billing", ["read", "manage"]⟩]⟩)
      = .allowed → False) ∧
    requirePermission "billing" "read"
        (some ⟨2, "nurse", "user", some [⟨"billing", ["read", "manage"]⟩]⟩)
      = .allowed := by
  have h := claim_C8 "billing" "read"
    ⟨2, "nurse", "user", some [⟨"billing", ["read", "manage"]⟩]⟩
    [⟨"billing", ["read", "manage"]⟩] (by decide) rfl
  have h2 := claim_C8 "inventory" "read"
    ⟨2, "nurse", "user", some [⟨"billing", ["read", "manage"]⟩]⟩
    [⟨"billing", ["read", "manage"]⟩] (by decide) rfl
  refine ⟨?_, ?_, ?_⟩
  · exact h.1.mpr ⟨⟨"billing", ["read", "manage"]⟩, by simp, rfl, by simp⟩
  · intro hbad
    rcases h2.1.mp hbad with ⟨p, hmem, hmod, _⟩
    simp at hmem
    rw [hmem] at hmod
    simp at hmod
  · exact (h.2 (by decide)).mpr ⟨⟨"billing", ["read", "manage"]⟩, by simp, rfl, by simp⟩

end HMS

namespace HMS

/-- C10: For every staff principal whose role field is "admin" (type
"user"), requirePermission grants every requested (module, action) pair
without consulting the permission set, whereas checkPermission exempts
only principals of type "admin" and still evaluates such a staff
principal's permission set (allowing iff an entry grants the action or
the manage wildcard). -/
theorem claim_C10 (u : ReqUser) (hrole : u.role = "admin") (hty : u.utype = "user") :
    (∀ m a, requirePermission m a (some u) = .allowed) ∧
    (∀ m a ps, u.permissions = some ps →
      (checkPermission m a none (some u) = .allowed ↔
        ∃ p ∈ ps, p.module = m ∧ (a ∈ p.actions ∨ "manage" ∈ p.actions))) := by
  have hne : u.utype ≠ "admin" := by rw [hty]; decide
  constructor
  · intro m a
    simp [requirePermission, hrole]
  · intro m a ps hp
    constructor
    · intro hall
      by_cases hperm : permits ps m a
      · simpa [permits, List.any_eq_true, List.contains] using hperm
      · simp [checkPermission, hne, hp, hperm] at hall
    · intro hex
      have hperm : permits ps m a := by
        simpa [permits, List.any_eq_true, List.contains] using hex
      simp [checkPermission, hne, hp, hperm]

/-- C10 witness: a staff principal with role "admin" and NO permissions
at all passes requirePermission for (billing, read), while the same kind
of principal with an empty permission set fails checkPermission. -/
theorem claim_C10_witness :
    requirePermission "billing" "read" (some ⟨5, "admin", "user", none⟩) = .allowed ∧
    (checkPermission "billing" "read" none (some ⟨5, "admin", "user", some []⟩)
        = .allowed → False) := by
  have h1 := (claim_C10 ⟨5, "admin", "user", none⟩ rfl rfl).1 "billing" "read"
  have h2 := (claim_C10 ⟨5, "admin", "user", some []⟩ rfl rfl).2 "billing" "read" [] rfl
  refine ⟨h1, fun hbad => ?_⟩
  rcases h2.mp hbad with ⟨p, hp, _⟩
  simp at hp

/-- C9 counterexample: (i) with one doctor DR0001 already in tenant 1,
the next nurse in the same tenant receives NU0002, not the NU0001 a
per-role counter would give — the counter counts all staff of the tenant
regardless of role; (ii) a different tenant (hospital 2) attempting to
create its first doctor is rejected with a duplicate-key error, because
the schema's global unique sparse index on employeeId forbids a second
DR0001 even across tenants. -/
theorem claim_C9_cex :
    generateEmployeeId
        [⟨21, "Dan", "Doe", "d@x.io", "pw", 1, "doctor", some "DR0001", true, [], 2⟩]
        1 "nurse" = "NU0002" ∧
    (createUser
        ⟨[], [],
         [⟨21, "Dan", "Doe", "d@x.io", "pw", 1, "doctor", some "DR0001", true, [], 2⟩],
         []⟩
        2 "doctor" "Eve" "Fox" "e@x.io" "tmp" 22 3 true).1
      = .duplicateKey := by
  decide

/-- C9 (amended): Staff creation generates employeeId from a per-tenant
counter over all roles — a 2-letter role prefix followed by (count of the
tenant's existing staff of any role) + 1, zero-padded to 4 digits — so
creating three doctors in an empty tenant still yields DR0001, DR0002,
DR0003 in order; but the schema also declares a global unique sparse
index on employeeId, so an id held by one tenant (e.g. DR0001) cannot be
issued again in a different tenant: such a save fails with a
duplicate-key error and the store is unchanged. -/
theorem claim_C9 (s : Store) (hid : Nat) (role fn ln email tmp : String)
    (uid cby : Nat) (emailOk : Bool) (w : StaffUser)
    (hmail : s.users.any (fun u => u.email == email) = false)
    (hw : w ∈ s.users)
    (hweid : w.employeeId = some (generateEmployeeId s.users hid role)) :
    ((createUser ⟨[], [], [], []⟩ 1 "doctor" "D1" "L1" "d1@x.io" "t1" 41 9 true).1
        = .success "DR0001" ∧
     (createUser
        (createUser ⟨[], [], [], []⟩ 1 "doctor" "D1" "L1" "d1@x.io" "t1" 41 9 true).2
        1 "doctor" "D2" "L2" "d2@x.io" "t2" 42 9 true).1
        = .success "DR0002" ∧
     (createUser
        (createUser
          (createUser ⟨[], [], [], []⟩ 1 "doctor" "D1" "L1" "d1@x.io" "t1" 41 9 true).2
          1 "doctor" "D2" "L2" "d2@x.io" "t2" 42 9 true).2
        1 "doctor" "D3" "L3" "d3@x.io" "t3" 43 9 true).1
        = .success "DR0003") ∧
    createUser s hid role fn ln email tmp uid cby emailOk = (.duplicateKey, s) := by
  constructor
  · exact ⟨by decide, by decide, by decide⟩
  · have hviol : violatesUniqueIndexes s.users
        ⟨uid, fn, ln, email, tmp, hid, role,
          some (generateEmployeeId s.users hid role), true, [], cby⟩ = true := by
      refine List.any_eq_true.mpr ⟨w, hw, ?_⟩
      simp [violatesUniqueIndexes, hweid]
    simp [createUser, hmail, hviol]

/-- C9 witness: with tenant 1 holding DR0001, tenant 2 creating its first
doctor (whose generated id is again DR0001) gets a duplicate-key
rejection with the store unchanged, while the three-doctor scenario in a
fresh tenant yields DR0001, DR0002, DR0003. -/
theorem claim_C9_witness :
    ((createUser ⟨[], [], [], []⟩ 1 "doctor" "D1" "L1" "d1@x.io" "t1" 41 9 true).1
        = .success "DR0001" ∧
     (createUser
        (createUser ⟨[], [], [], []⟩ 1 "doctor" "D1" "L1" "d1@x.io" "t1" 41 9 true).2
        1 "doctor" "D2" "L2" "d2@x.io" "t2" 42 9 true).1
        = .success "DR0002") ∧
    createUser
        ⟨[], [],
         [⟨25, "Gil", "Ham", "g@x.io", "pw", 1, "doctor", some "DR0001", true, [], 2⟩],
         []⟩
        2 "doctor" "Ian" "Jay" "i@x.io" "tmp" 26 3 true
      = (.duplicateKey,
         ⟨[], [],
          [⟨25, "Gil", "Ham", "g@x.io", "pw", 1, "doctor", some "DR0001", true, [], 2⟩],
          []⟩) := by
  have h := claim_C9
    ⟨[], [],
     [⟨25, "Gil", "Ham", "g@x.io", "pw", 1, "doctor", some "DR0001", true, [], 2⟩],
     []⟩
    2 "doctor" "Ian" "Jay" "i@x.io" "tmp" 26 3 true
    ⟨25, "Gil", "Ham", "g@x.io", "pw", 1, "doctor", some "DR0001", true, [], 2⟩
    (by decide) (by decide) (by decide)
  exact ⟨⟨h.1.1, h.1.2.1⟩, h.2⟩

end HMS
